import Mathlib

/-!
Shallow embedding of the CoE-Backend gateway core:
* `services/flow_router_service.py` — the dynamic route registry
  (`FlowRouterService.add_flow_route` / `remove_flow_route`) and the bound
  per-route handler `execute_flow_endpoint`;
* `core/app_factory.py` — the request interception pipeline
  (`ForwardedPrefixMiddleware.dispatch` and the `log_requests` middleware with
  its POST-body scrubbing stage and the GET-404 scanner-noise filter).

Python dicts keyed by strings are modelled as association lists with unique
keys, Python exceptions as `Except String`, and each `logging.*` call site as
one constructor of a structured log-line type.
-/

namespace CoE

/-- JSON-like values carried in request/response bodies. -/
inductive JVal where
  | bool : Bool → JVal
  | str : String → JVal
  | num : Nat → JVal
  | obj : List (String × JVal) → JVal

/-- A JSON object: ordered string-keyed fields, as returned by the handler. -/
abbrev JObj := List (String × JVal)

/-- `schemas.FlowRead`: the stored flow definition handed to `add_flow_route`.
`endpoint` is the `flow.endpoint` field, `flow_body` the opaque document
forwarded to the engine. -/
structure FlowRead where
  endpoint : String
  description : String
  flow_body : JVal

/-- Result of `langflow_service.execute_flow` as consumed by the handler:
fields `success`, `outputs`, `error`, `session_id`, `execution_time`. -/
structure ExecutionResult where
  success : Bool
  outputs : JVal
  error : String
  session_id : String
  execution_time : Nat

/-- The bound handler `execute_flow_endpoint` of one dynamic route
(`flow_router_service.py` lines 28-52).  The external engine call
`langflow_service.execute_flow(flow_data, inputs)` is passed in as the
fallible function `execute_flow`; `.error e` models the call raising an
exception with message `e`.  Returns the JSON envelope together with the
optional error-level log line emitted in the `except` branch. -/
def execute_flow_endpoint (flow : FlowRead)
    (execute_flow : JVal → JObj → Except String ExecutionResult)
    (user_input : JObj) : JObj × Option String :=
  match execute_flow flow.flow_body user_input with
  | .ok r =>
    if r.success then
      ([("success", .bool true), ("result", r.outputs),
        ("session_id", .str r.session_id), ("execution_time", .num r.execution_time)], none)
    else
      ([("success", .bool false), ("error", .str r.error)], none)
  | .error e =>
      ([("success", .bool false), ("error", .str e)],
       some ("Error executing dynamic flow " ++ flow.endpoint ++ ": " ++ e))

/-- One `APIRouter` created by `add_flow_route`: a single POST route at
`endpoint` with `summary := flow.description`, whose handler is
`execute_flow_endpoint` bound to `flow` (we record the captured flow). -/
structure RouterM where
  endpoint : String
  summary : String
  flow : FlowRead

/-- Log levels of the Python `logging` calls in the modelled code. -/
inductive LogLevel where
  | info
  | warning
  | error
deriving DecidableEq

/-- The log lines emitted by `FlowRouterService`, one constructor per
`logger.*` call site. -/
inductive SvcLog where
  | alreadyExists : String → SvcLog
  | added : String → SvcLog
  | deactivated : String → SvcLog
  | notFound : String → SvcLog

/-- Level of each `FlowRouterService` log call site: `logger.warning` only for
the not-found removal, `logger.info` otherwise. -/
def SvcLog.level : SvcLog → LogLevel
  | .notFound _ => .warning
  | _ => .info

/-- State of a `FlowRouterService` instance together with the parts of the
FastAPI `app` it mutates: `dynamic_routers` is the `Dict[str, APIRouter]`
registry (unique keys), `app_included` the routers attached to the app by
`app.include_router` (the serving surface), `openapi_schema` the cached
schema document (`none` = invalidated), and `log` the emitted log lines. -/
structure FlowRouterService where
  dynamic_routers : List (String × RouterM)
  app_included : List RouterM
  openapi_schema : Option String
  log : List SvcLog

/-- `FlowRouterService.add_flow_route` (lines 17-60): derive
`endpoint = "/run/" + flow.endpoint`; if already registered, log and return;
otherwise build the bound router, attach it via `include_router`, insert it
into the registry, invalidate the cached OpenAPI schema and log. -/
def add_flow_route (s : FlowRouterService) (flow : FlowRead) : FlowRouterService :=
  let endpoint := "/run/" ++ flow.endpoint
  if s.dynamic_routers.any (fun kv => kv.1 == endpoint) then
    { s with log := s.log ++ [.alreadyExists endpoint] }
  else
    let router : RouterM := { endpoint := endpoint, summary := flow.description, flow := flow }
    { s with
      app_included := s.app_included ++ [router]
      dynamic_routers := s.dynamic_routers ++ [(endpoint, router)]
      openapi_schema := none
      log := s.log ++ [.added endpoint] }

/-- `FlowRouterService.remove_flow_route` (lines 62-70): derive the same
endpoint path; if registered, delete the registry entry and invalidate the
cached schema (the attached router is NOT removed from the app); otherwise
log a warning and change nothing. -/
def remove_flow_route (s : FlowRouterService) (flow_endpoint : String) : FlowRouterService :=
  let endpoint := "/run/" ++ flow_endpoint
  if s.dynamic_routers.any (fun kv => kv.1 == endpoint) then
    { s with
      dynamic_routers := s.dynamic_routers.filter (fun kv => kv.1 != endpoint)
      openapi_schema := none
      log := s.log ++ [.deactivated endpoint] }
  else
    { s with log := s.log ++ [.notFound endpoint] }

/-- A path is reachable on the serving surface iff some attached router
serves it (FastAPI dispatches over all included routers). -/
def reachable (s : FlowRouterService) (path : String) : Bool :=
  s.app_included.any (fun r => r.endpoint == path)

/-! ### Request interception pipeline (`core/app_factory.py`) -/

/-- Python's `str.rstrip("/")`: drop every trailing `/` character. -/
def rstrip_slash (s : String) : String :=
  String.mk ((s.data.reverse.dropWhile (fun c => c = '/')).reverse)

/-- `ForwardedPrefixMiddleware.dispatch` (app_factory.py lines 161-166),
restricted to its effect on the request scope's root path: `header` is
`request.headers.get("x-forwarded-prefix")` (`none` when absent), and the
result is the effective root path for the rest of the request.  Python's
`if prefix:` is a truthiness test, false for both `None` and `""`. -/
def forwarded_prefix_dispatch (header : Option String) (root_path : String) : String :=
  match header with
  | some p => if p = "" then root_path else rstrip_slash p
  | none => root_path

/-- One scrubber match, a dict with a `"type"` key (`hit["type"]`). -/
structure PiiHit where
  type : String
deriving DecidableEq

/-- A scrubber: `scrub_text(decoded) -> (masked_body, body_hits)`. -/
abbrev Scrubber := String → String × List PiiHit

/-- Python's `s.startswith(p)`: character-wise prefix test. -/
def str_startswith (s p : String) : Bool :=
  p.data.isPrefixOf s.data

/-- Python's `s.endswith(p)`: character-wise suffix test. -/
def str_endswith (s p : String) : Bool :=
  p.data.isSuffixOf s.data

/-- Lexicographic code-point order on character lists, as Python compares
strings. -/
def charListLe : List Char → List Char → Bool
  | [], _ => true
  | _ :: _, [] => false
  | a :: as, b :: bs =>
    if a.toNat < b.toNat then true
    else if b.toNat < a.toNat then false
    else charListLe as bs

/-- Python's string `<=` (code-point lexicographic). -/
def strLe (a b : String) : Bool :=
  charListLe a.data b.data

/-- Insert a string into an already sorted list (ascending `strLe`). -/
def insertStr (x : String) : List String → List String
  | [] => [x]
  | y :: ys => if strLe x y then x :: y :: ys else y :: insertStr x ys

/-- Insertion sort on strings, modelling Python's `sorted` (ascending
code-point order). -/
def sortStrings : List String → List String
  | [] => []
  | x :: xs => insertStr x (sortStrings xs)

/-- Python's `",".join(parts)`. -/
def join_comma : List String → String
  | [] => ""
  | [x] => x
  | x :: xs => x ++ "," ++ join_comma xs

/-- `",".join(sorted({hit["type"] for hit in body_hits}))`: the distinct match
categories, sorted, comma-joined. -/
def masked_types (body_hits : List PiiHit) : String :=
  join_comma (sortStrings ((body_hits.map PiiHit.type).dedup))

/-- The log lines emitted by the `log_requests` middleware, one constructor
per `logging.*` call site, with the call's arguments. -/
inductive LogLine where
  | bodySnippet : (method path snippet suffix : String) → LogLine
  | piiSummary : (path types : String) → LogLine
  | bodyWarn : (err : String) → LogLine
  | accessClient : (method path client : String) → LogLine
  | accessStatus : (method path : String) → (status : Nat) → LogLine
deriving DecidableEq

/-- Level of each `log_requests` call site: `logging.warning` only for the
could-not-read-body line, `logging.info` otherwise. -/
def LogLine.level : LogLine → LogLevel
  | .bodyWarn _ => .warning
  | _ => .info

/-- The per-request data `log_requests` reads: `request.method`,
`request.url.path`, `request.client` (`none` when unavailable) and the
outcome of `await request.body()` already decoded with
`decode("utf-8", errors="replace")` (total, so fallibility sits in the
read itself: `.error e` models the awaited read raising `e`). -/
structure ReqModel where
  method : String
  urlPath : String
  client : Option String
  bodyResult : Except String String

/-- The POST body-capture stage of `log_requests` (app_factory.py lines
176-194): for POST requests, read the body inside `try`; on failure log one
warning; on an empty body do nothing; otherwise scrub, log the first 500
characters of the masked text with a `"..."` marker when longer, and when
matches were found log the PII summary line. -/
def body_log_stage (scrub : Scrubber) (req : ReqModel) : List LogLine :=
  if req.method = "POST" then
    match req.bodyResult with
    | .error e => [.bodyWarn e]
    | .ok body =>
      if body = "" then []
      else
        let masked := (scrub body).1
        let hits := (scrub body).2
        [.bodySnippet req.method req.urlPath (String.mk (masked.data.take 500))
            (if 500 < masked.data.length then "..." else "")] ++
          (if hits.isEmpty then [] else [.piiSummary req.urlPath (masked_types hits)])
  else []

/-- The `skip_prefixes` list of `log_requests` (app_factory.py lines
203-207), verbatim. -/
def skip_prefixes_list : List String :=
  ["/", "/favicon.ico", "/admin", "/login", "/cgi-bin", "/console", "/helpdesk",
   "/owncloud", "/zabbix", "/WebInterface", "/api/session/properties", "/ssi.cgi",
   "/jasperserver", "/partymgr", "/css/", "/js/", "/version"]

/-- The `skip_suffixes` list of `log_requests` (line 208), verbatim. -/
def skip_suffixes_list : List String :=
  [".php", ".pl", ".ico", ".html", ".js", ".png"]

/-- `is_scanner_like` (lines 209-213): exact root, or a prefix match against
`skip_prefixes`, or a suffix match against `skip_suffixes`. -/
def is_scanner_like (path : String) : Bool :=
  path == "/" ||
    skip_prefixes_list.any (fun p => str_startswith path p) ||
    skip_suffixes_list.any (fun s => str_endswith path s)

/-- The whole `log_requests` middleware (app_factory.py lines 172-232) after
downstream dispatch produced `status`: body stage, then the GET-404
scanner-noise filter inside its own `try` (`filterFault = some e` models the
guarded evaluation raising, whose `except` branch is a bare `pass`), then —
unless suppressed — the two access-log lines.  Returns the emitted log lines
and the status of the response handed back to the caller (the response object
is returned unmodified on every path). -/
def log_requests (scrub : Scrubber) (req : ReqModel) (status : Nat)
    (filterFault : Option String) : List LogLine × Nat :=
  let bodyLogs := body_log_stage scrub req
  let suppress :=
    match filterFault with
    | some _ => false
    | none =>
      let path := if req.urlPath = "" then "/" else req.urlPath
      (req.method == "GET" && status == 404) && is_scanner_like path
  if suppress then
    (bodyLogs, status)
  else
    let client_host := req.client.getD "unknown"
    (bodyLogs ++
      [.accessClient req.method req.urlPath client_host,
       .accessStatus req.method req.urlPath status], status)

/-! ### Sample inputs for concrete runs -/

/-- A scrubber that masks nothing, for concrete runs of GET requests. -/
def scrub_id : Scrubber := fun s => (s, [])

/-- A scrubber that would emit a nonempty mask and a hit if it were called. -/
def scrubMark : Scrubber := fun _ => ("X", [⟨"t"⟩])

/-- Sample flow definition used in concrete runs. -/
def flowW : FlowRead := ⟨"summarize", "demo", .str "doc"⟩

/-- An engine whose call raises. -/
def engineRaise : JVal → JObj → Except String ExecutionResult := fun _ _ => .error "boom"

/-- Empty-registry service state used in concrete runs. -/
def svc0 : FlowRouterService := ⟨[], [], some "cached", []⟩

/-- Sample flow definition with endpoint name `x`. -/
def flowX : FlowRead := ⟨"x", "d", .str "b"⟩

/-- The router `add_flow_route` builds for `flowX`. -/
def routerX : RouterM := ⟨"/run/x", "d", flowX⟩

/-- Service state already holding `flowX`'s route. -/
def svcX : FlowRouterService := ⟨[("/run/x", routerX)], [routerX], some "cached", []⟩

/-- A POST request whose body is captured empty. -/
def reqEmptyPost : ReqModel := ⟨"POST", "/e", some "c", .ok ""⟩

/-- A POST request whose body read raises. -/
def reqPE : ReqModel := ⟨"POST", "/a", none, .error "io"⟩

/-- A POST request with body successfully captured. -/
def reqW6 : ReqModel := ⟨"POST", "/p", some "c", .ok "hi"⟩

/-- A scrubber reporting duplicate PII categories. -/
def scrubW6 : Scrubber := fun s => (s, [⟨"phone"⟩, ⟨"email"⟩, ⟨"phone"⟩])

/-! ### Helper lemmas -/

theorem charListLe_total : ∀ a b : List Char, charListLe a b = true ∨ charListLe b a = true
  | [], _ => Or.inl rfl
  | _ :: _, [] => Or.inr rfl
  | a :: as, b :: bs => by
    by_cases h1 : a.toNat < b.toNat
    · left
      simp [charListLe, h1]
    · by_cases h2 : b.toNat < a.toNat
      · right
        simp [charListLe, h2]
      · rcases charListLe_total as bs with h | h
        · left
          simp [charListLe, h1, h2, h]
        · right
          simp [charListLe, h1, h2, h]

theorem charListLe_trans : ∀ a b c : List Char,
    charListLe a b = true → charListLe b c = true → charListLe a c = true
  | [], _, _, _, _ => rfl
  | _ :: _, [], _, hab, _ => by simp [charListLe] at hab
  | _ :: _, _ :: _, [], _, hbc => by simp [charListLe] at hbc
  | a :: as, b :: bs, c :: cs, hab, hbc => by
    simp only [charListLe] at hab hbc ⊢
    by_cases h1 : a.toNat < b.toNat
    · by_cases h2 : b.toNat < c.toNat
      · simp [show a.toNat < c.toNat by omega]
      · rw [if_neg h2] at hbc
        by_cases h4 : c.toNat < b.toNat
        · rw [if_pos h4] at hbc
          exact absurd hbc Bool.false_ne_true
        · simp [show a.toNat < c.toNat by omega]
    · rw [if_neg h1] at hab
      by_cases h2 : b.toNat < a.toNat
      · rw [if_pos h2] at hab
        exact absurd hab Bool.false_ne_true
      · rw [if_neg h2] at hab
        by_cases h3 : b.toNat < c.toNat
        · simp [show a.toNat < c.toNat by omega]
        · rw [if_neg h3] at hbc
          by_cases h4 : c.toNat < b.toNat
          · rw [if_pos h4] at hbc
            exact absurd hbc Bool.false_ne_true
          · rw [if_neg h4] at hbc
            have h5 : ¬ a.toNat < c.toNat := by omega
            have h6 : ¬ c.toNat < a.toNat := by omega
            rw [if_neg h5, if_neg h6]
            exact charListLe_trans as bs cs hab hbc

theorem strLe_total (a b : String) : strLe a b = true ∨ strLe b a = true :=
  charListLe_total a.data b.data

theorem strLe_trans {a b c : String} (hab : strLe a b = true) (hbc : strLe b c = true) :
    strLe a c = true :=
  charListLe_trans a.data b.data c.data hab hbc

theorem insertStr_perm (x : String) : ∀ l : List String, (insertStr x l).Perm (x :: l)
  | [] => List.Perm.refl _
  | y :: ys => by
    by_cases h : strLe x y = true
    · simp [insertStr, h]
    · have h' : strLe x y = false := by
        cases hv : strLe x y with
        | false => rfl
        | true => exact absurd hv h
      simp only [insertStr, h', if_neg Bool.false_ne_true]
      exact (List.Perm.cons y (insertStr_perm x ys)).trans (List.Perm.swap x y ys)

theorem sortStrings_perm : ∀ l : List String, (sortStrings l).Perm l
  | [] => List.Perm.refl _
  | x :: xs =>
    (insertStr_perm x (sortStrings xs)).trans (List.Perm.cons x (sortStrings_perm xs))

theorem pairwise_insertStr (x : String) :
    ∀ l : List String, l.Pairwise (fun a b => strLe a b = true) →
      (insertStr x l).Pairwise (fun a b => strLe a b = true)
  | [], _ => by simp [insertStr]
  | y :: ys, h => by
    rw [List.pairwise_cons] at h
    obtain ⟨hy, hys⟩ := h
    by_cases hxy : strLe x y = true
    · simp only [insertStr, hxy, if_pos rfl]
      refine List.Pairwise.cons ?_ (List.Pairwise.cons hy hys)
      intro z hz
      rcases List.mem_cons.mp hz with rfl | hz'
      · exact hxy
      · exact strLe_trans hxy (hy z hz')
    · have hxy' : strLe x y = false := by
        cases hv : strLe x y with
        | false => rfl
        | true => exact absurd hv hxy
      simp only [insertStr, hxy', if_neg Bool.false_ne_true]
      refine List.Pairwise.cons ?_ (pairwise_insertStr x ys hys)
      intro z hz
      have hz' := (insertStr_perm x ys).mem_iff.mp hz
      rcases List.mem_cons.mp hz' with rfl | hz''
      · rcases strLe_total y z with h | h
        · exact h
        · rw [hxy'] at h
          exact absurd h Bool.false_ne_true
      · exact hy z hz''

theorem sortStrings_pairwise :
    ∀ l : List String, (sortStrings l).Pairwise (fun a b => strLe a b = true)
  | [] => List.Pairwise.nil
  | x :: xs => pairwise_insertStr x (sortStrings xs) (sortStrings_pairwise xs)

theorem sortStrings_nodup {l : List String} (h : l.Nodup) : (sortStrings l).Nodup :=
  ((sortStrings_perm l).nodup_iff).mpr h

theorem any_filter_ne (k : String) :
    ∀ l : List (String × RouterM),
      ((l.filter fun kv => kv.1 != k).any fun kv => kv.1 == k) = false
  | [] => rfl
  | (a, b) :: l => by
    simp only [List.filter_cons]
    by_cases h : a = k
    · have hbne : ((a, b).1 != k) = false := by simp [h]
      rw [hbne, if_neg Bool.false_ne_true]
      exact any_filter_ne k l
    · have hbne : ((a, b).1 != k) = true := by simp [h]
      rw [hbne, if_pos rfl, List.any_cons]
      have heq : ((a, b).1 == k) = false := by simp [h]
      rw [heq, Bool.false_or]
      exact any_filter_ne k l

theorem bool_eq_false {b : Bool} (h : ¬ b = true) : b = false := by
  cases b with
  | false => rfl
  | true => exact absurd rfl h

theorem add_flow_route_mem (t : FlowRouterService) (flow : FlowRead)
    (h : t.dynamic_routers.any (fun kv => kv.1 == "/run/" ++ flow.endpoint) = true) :
    add_flow_route t flow =
      { t with log := t.log ++ [.alreadyExists ("/run/" ++ flow.endpoint)] } := by
  simp only [add_flow_route]
  rw [if_pos h]

theorem add_flow_route_not_mem (t : FlowRouterService) (flow : FlowRead)
    (h : t.dynamic_routers.any (fun kv => kv.1 == "/run/" ++ flow.endpoint) = false) :
    add_flow_route t flow =
      { t with
        app_included := t.app_included ++
          [⟨"/run/" ++ flow.endpoint, flow.description, flow⟩]
        dynamic_routers := t.dynamic_routers ++
          [("/run/" ++ flow.endpoint, ⟨"/run/" ++ flow.endpoint, flow.description, flow⟩)]
        openapi_schema := none
        log := t.log ++ [.added ("/run/" ++ flow.endpoint)] } := by
  simp only [add_flow_route]
  rw [if_neg (by rw [h]; exact Bool.false_ne_true)]

theorem remove_flow_route_mem (t : FlowRouterService) (e : String)
    (h : t.dynamic_routers.any (fun kv => kv.1 == "/run/" ++ e) = true) :
    remove_flow_route t e =
      { t with
        dynamic_routers := t.dynamic_routers.filter (fun kv => kv.1 != "/run/" ++ e)
        openapi_schema := none
        log := t.log ++ [.deactivated ("/run/" ++ e)] } := by
  simp only [remove_flow_route]
  rw [if_pos h]

theorem remove_flow_route_not_mem (t : FlowRouterService) (e : String)
    (h : t.dynamic_routers.any (fun kv => kv.1 == "/run/" ++ e) = false) :
    remove_flow_route t e = { t with log := t.log ++ [.notFound ("/run/" ++ e)] } := by
  simp only [remove_flow_route]
  rw [if_neg (by rw [h]; exact Bool.false_ne_true)]

/-! ### Claim theorems -/

/-- C1: evaluation of the noise filter on the spec's own examples.  A GET to
`/favicon.ico` returning 404 emits zero access-log lines and a GET to `/`
returning 200 is logged normally, as claimed — but a GET to `/run/summarize`
returning 404 is ALSO suppressed (zero access-log lines), because the
`skip_prefixes` list contains `"/"`, which prefix-matches every request path,
so every GET 404 is classified as scanner noise.  This contradicts the claim
(and the code's own comment that only SOME GET-404 paths are ignored). -/
theorem c1_get404_suppression_eval :
    is_scanner_like "/run/summarize" = true ∧
    (log_requests scrub_id ⟨"GET", "/run/summarize", some "testclient", .ok ""⟩ 404 none).1
      = [] ∧
    (log_requests scrub_id ⟨"GET", "/favicon.ico", some "testclient", .ok ""⟩ 404 none).1
      = [] ∧
    (log_requests scrub_id ⟨"GET", "/", some "testclient", .ok ""⟩ 200 none).1 =
      [.accessClient "GET" "/" "testclient", .accessStatus "GET" "/" 200] := by
  decide

/-- C2: for every outcome of the engine call — success, logical failure, or a
raised exception — the bound handler returns a JSON envelope with a boolean
`success` field and exactly one of `result`/`error` populated; a raised
exception is converted to `{success: false, error: message}` (with an
error-level log) instead of propagating. -/
theorem c2_envelope_uniformity (flow : FlowRead)
    (execute_flow : JVal → JObj → Except String ExecutionResult) (user_input : JObj) :
    (∃ b : Bool,
      ((execute_flow_endpoint flow execute_flow user_input).1).lookup "success"
        = some (.bool b)) ∧
    ((((execute_flow_endpoint flow execute_flow user_input).1).lookup "result").isSome = true ∧
        ((execute_flow_endpoint flow execute_flow user_input).1).lookup "error" = none ∨
      ((execute_flow_endpoint flow execute_flow user_input).1).lookup "result" = none ∧
        (((execute_flow_endpoint flow execute_flow user_input).1).lookup "error").isSome
          = true) ∧
    (∀ r, execute_flow flow.flow_body user_input = .ok r → r.success = true →
      (execute_flow_endpoint flow execute_flow user_input).1 =
        [("success", .bool true), ("result", r.outputs), ("session_id", .str r.session_id),
         ("execution_time", .num r.execution_time)]) ∧
    (∀ r, execute_flow flow.flow_body user_input = .ok r → r.success = false →
      (execute_flow_endpoint flow execute_flow user_input).1 =
        [("success", .bool false), ("error", .str r.error)]) ∧
    (∀ e, execute_flow flow.flow_body user_input = .error e →
      execute_flow_endpoint flow execute_flow user_input =
        ([("success", .bool false), ("error", .str e)],
         some ("Error executing dynamic flow " ++ flow.endpoint ++ ": " ++ e))) := by
  simp only [execute_flow_endpoint]
  cases hres : execute_flow flow.flow_body user_input with
  | ok r =>
    dsimp only
    by_cases hs : r.success = true
    · rw [if_pos hs]
      refine ⟨⟨true, rfl⟩, Or.inl ⟨rfl, rfl⟩, ?_, ?_, ?_⟩
      · intro r' hr' _
        injection hr' with h
        subst h
        rfl
      · intro r' hr' hs'
        injection hr' with h
        subst h
        rw [hs] at hs'
        exact Bool.noConfusion hs'
      · intro e he
        cases he
    · rw [if_neg hs]
      refine ⟨⟨false, rfl⟩, Or.inr ⟨rfl, rfl⟩, ?_, ?_, ?_⟩
      · intro r' hr' hs'
        injection hr' with h
        subst h
        exact absurd hs' hs
      · intro r' hr' _
        injection hr' with h
        subst h
        rfl
      · intro e he
        cases he
  | error e =>
    dsimp only
    refine ⟨⟨false, rfl⟩, Or.inr ⟨rfl, rfl⟩, ?_, ?_, ?_⟩
    · intro r' hr' _
      cases hr'
    · intro r' hr' _
      cases hr'
    · intro e' he
      injection he with h
      subst h
      rfl

/-- C2 witness: the handler of `flowW` with a raising engine at a concrete
input returns the failure envelope and logs. -/
theorem c2_envelope_uniformity_witness :
    engineRaise flowW.flow_body [] = Except.error "boom" ∧
    execute_flow_endpoint flowW engineRaise [] =
      ([("success", JVal.bool false), ("error", JVal.str "boom")],
       some "Error executing dynamic flow summarize: boom") :=
  ⟨rfl, (c2_envelope_uniformity flowW engineRaise []).2.2.2.2 "boom" rfl⟩

/-- C8 counterexample: a request CARRYING the forwarded-prefix header with the
empty-string value keeps its root path `/api` unchanged (Python's
`if prefix:` is a truthiness test), whereas the claim says every request
carrying the header gets its root path overridden to the header's value with
trailing slashes stripped, i.e. to `""` here. -/
theorem c8_empty_prefix_header_counterexample :
    forwarded_prefix_dispatch (some "") "/api" = "/api" ∧
    rstrip_slash "" = "" ∧ "/api" ≠ rstrip_slash "" := by
  decide

/-- C8 (amended): a request carrying the forwarded-prefix header with a
NON-EMPTY value has its effective root path overridden to the header's value
with trailing slashes stripped; requests without the header, or with an
empty header value, keep their root path unchanged. -/
theorem c8_forwarded_prefix_rewrite (header : Option String) (root_path : String) :
    (header = none → forwarded_prefix_dispatch header root_path = root_path) ∧
    (header = some "" → forwarded_prefix_dispatch header root_path = root_path) ∧
    (∀ p, header = some p → p ≠ "" →
      forwarded_prefix_dispatch header root_path = rstrip_slash p) := by
  refine ⟨?_, ?_, ?_⟩
  · rintro rfl
    rfl
  · rintro rfl
    rfl
  · rintro p rfl hp
    simp [forwarded_prefix_dispatch, hp]

/-- C8 witness: `x-forwarded-prefix: /api//` rewrites the root path to
`/api`. -/
theorem c8_forwarded_prefix_rewrite_witness :
    ("/api//" : String) ≠ "" ∧
    forwarded_prefix_dispatch (some "/api//") "/root" = rstrip_slash "/api//" ∧
    rstrip_slash "/api//" = "/api" :=
  ⟨by decide,
   (c8_forwarded_prefix_rewrite (some "/api//") "/root").2.2 "/api//" rfl (by decide),
   by decide⟩

/-- C9: a POST request whose captured body is empty emits neither the
body-snippet line nor the PII summary line — for EVERY scrubber, i.e. the
scrubber is never consulted — and the rest of the pipeline proceeds
normally. -/
theorem c9_empty_post_body_skips_body_logging (scrub : Scrubber) (req : ReqModel)
    (status : Nat) (filterFault : Option String)
    (hm : req.method = "POST") (hb : req.bodyResult = .ok "") :
    body_log_stage scrub req = [] ∧
    ∀ l ∈ (log_requests scrub req status filterFault).1,
      (∀ m p sn su, l ≠ .bodySnippet m p sn su) ∧ ∀ p t, l ≠ .piiSummary p t := by
  have hbody : body_log_stage scrub req = [] := by
    simp [body_log_stage, hm, hb]
  have hshape : (log_requests scrub req status filterFault).1 = [] ∨
      (log_requests scrub req status filterFault).1 =
        [.accessClient req.method req.urlPath (req.client.getD "unknown"),
         .accessStatus req.method req.urlPath status] := by
    simp only [log_requests, hbody]
    cases filterFault with
    | some f => exact Or.inr rfl
    | none =>
      dsimp only
      cases hsup : (req.method == "GET" && status == 404) &&
          is_scanner_like (if req.urlPath = "" then "/" else req.urlPath) with
      | true => exact Or.inl rfl
      | false => exact Or.inr rfl
  refine ⟨hbody, ?_⟩
  intro l hl
  rcases hshape with h | h
  · rw [h] at hl
    exact absurd hl (List.not_mem_nil l)
  · rw [h] at hl
    rcases List.mem_cons.mp hl with rfl | hl2
    · exact ⟨fun m p sn su h => LogLine.noConfusion h,
        fun p t h => LogLine.noConfusion h⟩
    · rcases List.mem_cons.mp hl2 with rfl | hl3
      · exact ⟨fun m p sn su h => LogLine.noConfusion h,
          fun p t h => LogLine.noConfusion h⟩
      · exact absurd hl3 (List.not_mem_nil l)

/-- C9 witness: the empty-body POST request emits no body logs even under a
scrubber that would mask and report a hit. -/
theorem c9_empty_post_body_witness :
    (reqEmptyPost.method = "POST" ∧ reqEmptyPost.bodyResult = Except.ok "") ∧
    body_log_stage scrubMark reqEmptyPost = [] :=
  ⟨⟨rfl, rfl⟩,
   (c9_empty_post_body_skips_body_logging scrubMark reqEmptyPost 200 none rfl rfl).1⟩

/-- C3: from any well-formed registry state (at most one entry per key, as for
a Python dict), calling `add_flow_route` twice with the same flow leaves
exactly one registry entry for the derived path, and the second call equals
the first call's state with only an already-exists log line appended — no
insertion, no handler attachment, no schema invalidation. -/
theorem c3_add_route_idempotent (s : FlowRouterService) (flow : FlowRead)
    (h : s.dynamic_routers.countP (fun kv => kv.1 == "/run/" ++ flow.endpoint) ≤ 1) :
    (add_flow_route (add_flow_route s flow) flow).dynamic_routers.countP
        (fun kv => kv.1 == "/run/" ++ flow.endpoint) = 1 ∧
    add_flow_route (add_flow_route s flow) flow =
      { add_flow_route s flow with
        log := (add_flow_route s flow).log ++
          [.alreadyExists ("/run/" ++ flow.endpoint)] } := by
  by_cases hmem : s.dynamic_routers.any (fun kv => kv.1 == "/run/" ++ flow.endpoint) = true
  · have h1 := add_flow_route_mem s flow hmem
    have hmem2 : (add_flow_route s flow).dynamic_routers.any
        (fun kv => kv.1 == "/run/" ++ flow.endpoint) = true := by
      rw [h1]
      exact hmem
    have h2 := add_flow_route_mem _ flow hmem2
    refine ⟨?_, h2⟩
    rw [h2, h1]
    dsimp only
    have hpos : 0 < s.dynamic_routers.countP (fun kv => kv.1 == "/run/" ++ flow.endpoint) := by
      obtain ⟨x, hx, hpx⟩ := List.any_eq_true.mp hmem
      exact List.countP_pos_iff.mpr ⟨x, hx, hpx⟩
    omega
  · have hF := bool_eq_false hmem
    have h1 := add_flow_route_not_mem s flow hF
    have hmem2 : (add_flow_route s flow).dynamic_routers.any
        (fun kv => kv.1 == "/run/" ++ flow.endpoint) = true := by
      rw [h1]
      simp [List.any_append]
    have h2 := add_flow_route_mem _ flow hmem2
    refine ⟨?_, h2⟩
    have hzero : s.dynamic_routers.countP (fun kv => kv.1 == "/run/" ++ flow.endpoint) = 0 := by
      rw [List.countP_eq_zero]
      intro a ha hpa
      have hx : s.dynamic_routers.any (fun kv => kv.1 == "/run/" ++ flow.endpoint) = true :=
        List.any_eq_true.mpr ⟨a, ha, hpa⟩
      rw [hF] at hx
      exact Bool.noConfusion hx
    rw [h2, h1]
    dsimp only
    rw [List.countP_append, hzero]
    simp [List.countP_cons]

/-- C3 witness: registering `flowW` twice on the empty registry. -/
theorem c3_add_route_idempotent_witness :
    svc0.dynamic_routers.countP (fun kv => kv.1 == "/run/" ++ flowW.endpoint) ≤ 1 ∧
    ((add_flow_route (add_flow_route svc0 flowW) flowW).dynamic_routers.countP
        (fun kv => kv.1 == "/run/" ++ flowW.endpoint) = 1 ∧
      add_flow_route (add_flow_route svc0 flowW) flowW =
        { add_flow_route svc0 flowW with
          log := (add_flow_route svc0 flowW).log ++
            [.alreadyExists ("/run/" ++ flowW.endpoint)] }) :=
  ⟨by decide, c3_add_route_idempotent svc0 flowW (by decide)⟩

/-- C4: when the derived path `"/run/" + endpointName` is not yet registered,
`add_flow_route` inserts the path with the handler bound to that flow into
the registry, attaches the router to the serving surface (making the path
reachable), invalidates the cached OpenAPI schema, and logs the addition. -/
theorem c4_add_route_fresh (s : FlowRouterService) (flow : FlowRead)
    (h : s.dynamic_routers.any (fun kv => kv.1 == "/run/" ++ flow.endpoint) = false) :
    (add_flow_route s flow).dynamic_routers =
      s.dynamic_routers ++
        [("/run/" ++ flow.endpoint, ⟨"/run/" ++ flow.endpoint, flow.description, flow⟩)] ∧
    (add_flow_route s flow).app_included =
      s.app_included ++ [⟨"/run/" ++ flow.endpoint, flow.description, flow⟩] ∧
    (add_flow_route s flow).openapi_schema = none ∧
    (add_flow_route s flow).log = s.log ++ [.added ("/run/" ++ flow.endpoint)] ∧
    reachable (add_flow_route s flow) ("/run/" ++ flow.endpoint) = true := by
  have h1 := add_flow_route_not_mem s flow h
  refine ⟨?_, ?_, ?_, ?_, ?_⟩
  · rw [h1]
  · rw [h1]
  · rw [h1]
  · rw [h1]
  · rw [h1]
    simp [reachable, List.any_append]

/-- C4 witness: registering `flowW` on the empty registry yields a reachable
`/run/summarize` route bound to `flowW`, with the schema cache cleared. -/
theorem c4_add_route_fresh_witness :
    svc0.dynamic_routers.any (fun kv => kv.1 == "/run/" ++ flowW.endpoint) = false ∧
    ((add_flow_route svc0 flowW).dynamic_routers =
      svc0.dynamic_routers ++
        [("/run/" ++ flowW.endpoint,
          ⟨"/run/" ++ flowW.endpoint, flowW.description, flowW⟩)] ∧
    (add_flow_route svc0 flowW).app_included =
      svc0.app_included ++ [⟨"/run/" ++ flowW.endpoint, flowW.description, flowW⟩] ∧
    (add_flow_route svc0 flowW).openapi_schema = none ∧
    (add_flow_route svc0 flowW).log = svc0.log ++ [.added ("/run/" ++ flowW.endpoint)] ∧
    reachable (add_flow_route svc0 flowW) ("/run/" ++ flowW.endpoint) = true) :=
  ⟨rfl, c4_add_route_fresh svc0 flowW rfl⟩

/-- C5: `remove_flow_route` never touches the serving surface (the attached
handlers, hence reachability, are unchanged); when the derived path is
registered it deletes only that registry entry and invalidates the cached
schema, and when it is absent it only appends a warning-level log line. -/
theorem c5_remove_route_effects (s : FlowRouterService) (e : String) :
    (remove_flow_route s e).app_included = s.app_included ∧
    (∀ p, reachable (remove_flow_route s e) p = reachable s p) ∧
    (s.dynamic_routers.any (fun kv => kv.1 == "/run/" ++ e) = true →
      remove_flow_route s e =
        { s with
          dynamic_routers := s.dynamic_routers.filter (fun kv => kv.1 != "/run/" ++ e)
          openapi_schema := none
          log := s.log ++ [.deactivated ("/run/" ++ e)] }) ∧
    (s.dynamic_routers.any (fun kv => kv.1 == "/run/" ++ e) = false →
      remove_flow_route s e = { s with log := s.log ++ [.notFound ("/run/" ++ e)] }) ∧
    SvcLog.level (.notFound ("/run/" ++ e)) = .warning := by
  have happ : (remove_flow_route s e).app_included = s.app_included := by
    by_cases hmem : s.dynamic_routers.any (fun kv => kv.1 == "/run/" ++ e) = true
    · rw [remove_flow_route_mem s e hmem]
    · rw [remove_flow_route_not_mem s e (bool_eq_false hmem)]
  refine ⟨happ, ?_, remove_flow_route_mem s e, remove_flow_route_not_mem s e, rfl⟩
  intro p
  unfold reachable
  rw [happ]

/-- C5 witness: removing `flowX`'s route from a state holding it deletes the
registry entry and clears the schema cache while leaving the attached router
in place. -/
theorem c5_remove_route_effects_witness :
    svcX.dynamic_routers.any (fun kv => kv.1 == "/run/" ++ "x") = true ∧
    (remove_flow_route svcX "x").app_included = svcX.app_included ∧
    remove_flow_route svcX "x" =
      { svcX with
        dynamic_routers := svcX.dynamic_routers.filter (fun kv => kv.1 != "/run/" ++ "x")
        openapi_schema := none
        log := svcX.log ++ [.deactivated ("/run/" ++ "x")] } :=
  ⟨by decide, (c5_remove_route_effects svcX "x").1,
   (c5_remove_route_effects svcX "x").2.2.1 (by decide)⟩

/-- C10: for every starting state, `remove_flow_route` followed by
`add_flow_route` with the same flow re-takes the insertion branch (the
already-exists check fails after removal), re-inserts the entry, invalidates
the cached schema, and leaves exactly one registry entry for the derived
path. -/
theorem c10_remove_add_roundtrip (s : FlowRouterService) (flow : FlowRead) :
    (remove_flow_route s flow.endpoint).dynamic_routers.any
        (fun kv => kv.1 == "/run/" ++ flow.endpoint) = false ∧
    (add_flow_route (remove_flow_route s flow.endpoint) flow).dynamic_routers =
      (remove_flow_route s flow.endpoint).dynamic_routers ++
        [("/run/" ++ flow.endpoint, ⟨"/run/" ++ flow.endpoint, flow.description, flow⟩)] ∧
    (add_flow_route (remove_flow_route s flow.endpoint) flow).openapi_schema = none ∧
    (add_flow_route (remove_flow_route s flow.endpoint) flow).dynamic_routers.countP
        (fun kv => kv.1 == "/run/" ++ flow.endpoint) = 1 := by
  have hany : (remove_flow_route s flow.endpoint).dynamic_routers.any
      (fun kv => kv.1 == "/run/" ++ flow.endpoint) = false := by
    by_cases hmem : s.dynamic_routers.any
        (fun kv => kv.1 == "/run/" ++ flow.endpoint) = true
    · rw [remove_flow_route_mem s flow.endpoint hmem]
      exact any_filter_ne ("/run/" ++ flow.endpoint) s.dynamic_routers
    · rw [remove_flow_route_not_mem s flow.endpoint (bool_eq_false hmem)]
      exact bool_eq_false hmem
  have hadd := add_flow_route_not_mem _ flow hany
  have hzero : (remove_flow_route s flow.endpoint).dynamic_routers.countP
      (fun kv => kv.1 == "/run/" ++ flow.endpoint) = 0 := by
    rw [List.countP_eq_zero]
    intro a ha hpa
    have hx : (remove_flow_route s flow.endpoint).dynamic_routers.any
        (fun kv => kv.1 == "/run/" ++ flow.endpoint) = true :=
      List.any_eq_true.mpr ⟨a, ha, hpa⟩
    rw [hany] at hx
    exact Bool.noConfusion hx
  refine ⟨hany, ?_, ?_, ?_⟩
  · rw [hadd]
  · rw [hadd]
  · rw [hadd]
    dsimp only
    rw [List.countP_append, hzero]
    simp [List.countP_cons]

/-- C6: for a POST request with a non-empty captured body, the body stage
logs a snippet that is the first 500 characters of the masked text (hence at
most 500 characters long), with the `"..."` truncation marker exactly when
the masked text is longer than 500 characters; and it emits the PII summary
line exactly when the scrubber reports at least one match, listing the
distinct match categories, sorted, comma-joined. -/
theorem c6_post_body_logging (scrub : Scrubber) (req : ReqModel) (body : String)
    (hm : req.method = "POST") (hb : req.bodyResult = .ok body) (hne : body ≠ "") :
    (body_log_stage scrub req).head? =
      some (.bodySnippet "POST" req.urlPath (String.mk ((scrub body).1.data.take 500))
        (if 500 < (scrub body).1.data.length then "..." else "")) ∧
    (String.mk ((scrub body).1.data.take 500)).data.length ≤ 500 ∧
    ((scrub body).2 = [] → body_log_stage scrub req =
      [.bodySnippet "POST" req.urlPath (String.mk ((scrub body).1.data.take 500))
        (if 500 < (scrub body).1.data.length then "..." else "")]) ∧
    ((scrub body).2 ≠ [] → body_log_stage scrub req =
      [.bodySnippet "POST" req.urlPath (String.mk ((scrub body).1.data.take 500))
        (if 500 < (scrub body).1.data.length then "..." else ""),
       .piiSummary req.urlPath (masked_types (scrub body).2)]) ∧
    masked_types (scrub body).2 =
      join_comma (sortStrings (((scrub body).2.map PiiHit.type).dedup)) ∧
    (sortStrings (((scrub body).2.map PiiHit.type).dedup)).Pairwise
      (fun a b => strLe a b = true) ∧
    (sortStrings (((scrub body).2.map PiiHit.type).dedup)).Nodup := by
  have hstage : body_log_stage scrub req =
      [.bodySnippet "POST" req.urlPath (String.mk ((scrub body).1.data.take 500))
        (if 500 < (scrub body).1.data.length then "..." else "")] ++
      (if (scrub body).2.isEmpty then []
       else [.piiSummary req.urlPath (masked_types (scrub body).2)]) := by
    simp [body_log_stage, hm, hb, hne]
  refine ⟨?_, ?_, ?_, ?_, rfl, sortStrings_pairwise _, sortStrings_nodup (List.nodup_dedup _)⟩
  · rw [hstage]
    rfl
  · show ((scrub body).1.data.take 500).length ≤ 500
    rw [List.length_take]
    exact min_le_left _ _
  · intro hhits
    rw [hstage, hhits]
    rfl
  · intro hhits
    have hne2 : (scrub body).2.isEmpty = false := by
      cases hv : (scrub body).2 with
      | nil => exact absurd hv hhits
      | cons a l => rfl
    rw [hstage, hne2]
    rfl

/-- C6 witness: a concrete POST body scrubbed with duplicate `phone` hits and
an `email` hit logs the snippet and the deduplicated, sorted summary
`email,phone`. -/
theorem c6_post_body_logging_witness :
    (reqW6.method = "POST" ∧ reqW6.bodyResult = Except.ok "hi" ∧ "hi" ≠ "") ∧
    body_log_stage scrubW6 reqW6 =
      [.bodySnippet "POST" "/p" "hi" "", .piiSummary "/p" "email,phone"] := by
  have h := c6_post_body_logging scrubW6 reqW6 "hi" rfl rfl (by decide)
  have h4 := h.2.2.2.1 (by decide)
  refine ⟨⟨rfl, rfl, by decide⟩, ?_⟩
  rw [h4]
  decide

/-- C7 counterexample: a run whose scanner-noise-heuristic evaluation raises
emits only the two info-level access-log lines — in particular no
warning-level line — whereas the claim says the heuristic failure is logged
at warning level. -/
theorem c7_filter_fault_unlogged_counterexample :
    (log_requests scrub_id ⟨"GET", "/x", some "c", .ok ""⟩ 404 (some "boom")).1 =
      [.accessClient "GET" "/x" "c", .accessStatus "GET" "/x" 404] ∧
    ¬ ∃ l ∈ (log_requests scrub_id ⟨"GET", "/x", some "c", .ok ""⟩ 404 (some "boom")).1,
      l.level = .warning := by
  decide

/-- C7 (amended): logging failures never abort request handling — a body-read
failure on a POST request is caught and logged as a single warning-level
line, and a failure while evaluating the scanner-noise heuristic is caught
silently (no log line is emitted for it), treated as do-not-suppress so that
the normal two access-log lines are still produced; in every case the
response is returned unchanged. -/
theorem c7_logging_failures_nonfatal (scrub : Scrubber) (req : ReqModel) (status : Nat)
    (e : String) :
    (log_requests scrub req status (some e)).2 = status ∧
    (log_requests scrub req status (some e)).1 =
      body_log_stage scrub req ++
        [.accessClient req.method req.urlPath (req.client.getD "unknown"),
         .accessStatus req.method req.urlPath status] ∧
    (∀ eb, req.method = "POST" → req.bodyResult = .error eb →
      body_log_stage scrub req = [.bodyWarn eb] ∧
        LogLine.level (.bodyWarn eb) = .warning) ∧
    (∀ fault : Option String, (log_requests scrub req status fault).2 = status) := by
  refine ⟨rfl, rfl, ?_, ?_⟩
  · intro eb hm hbe
    refine ⟨?_, rfl⟩
    simp [body_log_stage, hm, hbe]
  · intro fault
    have hpair : ∀ (b : Bool) (x y : List LogLine),
        (if b = true then (x, status) else (y, status)).2 = status := by
      intro b x y
      cases b with
      | true => rfl
      | false => rfl
    cases fault with
    | none =>
      simp only [log_requests]
      exact hpair _ _ _
    | some f => rfl

/-- C7 witness: a POST request whose body read raises `io`, run with a
faulting noise filter, still returns its response and logs the warning plus
the two access lines. -/
theorem c7_logging_failures_nonfatal_witness :
    (reqPE.method = "POST" ∧ reqPE.bodyResult = Except.error "io") ∧
    (log_requests scrub_id reqPE 200 (some "boom")).1 =
      [.bodyWarn "io", .accessClient "POST" "/a" "unknown", .accessStatus "POST" "/a" 200] ∧
    body_log_stage scrub_id reqPE = [.bodyWarn "io"] ∧
    (log_requests scrub_id reqPE 200 (some "boom")).2 = 200 := by
  have h := c7_logging_failures_nonfatal scrub_id reqPE 200 "boom"
  have hb := (h.2.2.1 "io" rfl rfl).1
  refine ⟨⟨rfl, rfl⟩, ?_, hb, h.1⟩
  rw [h.2.1, hb]
  rfl

end CoE
